import Mathlib

/-!
Shallow embedding of the permission-resolution and ownership-consistency
engine of repo/models.py (users and organizations own projects; access is
granted through team membership with slug-keyed permissions).

Database rows become structures over Nat primary keys; a RepoState holds the
row lists; Django queryset filter chains become List.filter chains; queries
that can raise become Except-valued functions.
-/

/-- A row of the static permission catalog (model Permission). -/
structure Permission where
  id : Nat
  slug : String
  pname : String
  description : String
  applies_to_project : Bool
deriving DecidableEq

/-- A user row (model RepoUser = AbstractBaseUser + PermissionsMixin +
Namespace).  Its primary key is the shared Namespace primary key. -/
structure RepoUser where
  id : Nat
  uname : String
  email : String
  password : String
  is_staff : Bool
  is_active : Bool
  is_superuser : Bool
  date_joined : Nat
deriving DecidableEq

/-- An organization row (model Organization, a Namespace with no extra
fields).  Its primary key is the shared Namespace primary key. -/
structure Organization where
  id : Nat
  oname : String
deriving DecidableEq

/-- A project row (model Project); namespace_id is the owning Namespace. -/
structure Project where
  id : Nat
  pname : String
  namespace_id : Nat
  description : String
deriving DecidableEq

/-- The abstract Team shape (model Team, abstract): name, member users
(many-to-many, by user id), granted permissions (by permission id), and the
owner-team flag. -/
structure Team where
  tname : String
  users : List Nat
  permissions : List Nat
  is_owner_team : Bool
deriving DecidableEq

/-- An organization-scoped team row (model OrganizationTeam). -/
structure OrganizationTeam where
  tname : String
  users : List Nat
  permissions : List Nat
  is_owner_team : Bool
  organization_id : Nat
  projects : List Nat
  is_all_projects : Bool
deriving DecidableEq

/-- A project-scoped team row (model ProjectTeam). -/
structure ProjectTeam where
  tname : String
  users : List Nat
  permissions : List Nat
  is_owner_team : Bool
  project_id : Nat
deriving DecidableEq

/-- The database state: the row lists of every table the engine reads. -/
structure RepoState where
  users : List RepoUser
  orgs : List Organization
  projects : List Project
  permissions : List Permission
  orgTeams : List OrganizationTeam
  projectTeams : List ProjectTeam
deriving DecidableEq

/-- A Namespace id resolved to its concrete variant. -/
inductive NsVariant where
  | user (u : RepoUser)
  | org (o : Organization)
deriving DecidableEq

/-- The error taxonomy of the engine: a Namespace id that does not resolve
to exactly one concrete variant is a corrupted ownership graph. -/
inductive RepoError where
  | integrityError
deriving DecidableEq

/-- Modelled from the spec: the resolve-to-concrete-variant
query (Namespace.objects.get_subclass, provided by the external
InheritanceManager): given a Namespace id, return the unique concrete variant
(User or Organization) carrying it, and fail when there is not exactly one. -/
def get_subclass (s : RepoState) (nsid : Nat) : Except RepoError NsVariant :=
  match s.users.filter (fun u => u.id == nsid), s.orgs.filter (fun o => o.id == nsid) with
  | [u], [] => .ok (.user u)
  | [], [o] => .ok (.org o)
  | _, _ => .error .integrityError

/-- The queryset condition permissions__slug=perm_slug: some permission id
held by the team belongs to a catalog row whose slug is the requested one. -/
def holdsPermSlug (s : RepoState) (permIds : List Nat) (perm_slug : String) : Bool :=
  permIds.any (fun pid => s.permissions.any (fun perm => perm.id == pid && perm.slug == perm_slug))

/-- RepoUser.user_has_permission: grant iff the acting user is this user
(Django model equality compares primary keys of the same concrete model). -/
def RepoUser.user_has_permission (self : RepoUser) (user : Nat) (_perm_slug : String)
    (_project : Option Nat) : Bool :=
  user == self.id

/-- The queryset condition Q(projects=project) of Organization.user_has_permission.
With a concrete project it tests many-to-many membership; with project=None the
ORM turns it into projects__isnull=True, which matches teams whose project set
is empty. -/
def projectFilterMatch (t : OrganizationTeam) (project : Option Nat) : Bool :=
  match project with
  | some pid => t.projects.contains pid
  | none => t.projects.isEmpty

/-- The count of the filter chain of Organization.user_has_permission:
self.teams (teams of this organization), filtered by users=user, then by
Q(is_all_projects=True) | Q(projects=project), then by
Q(is_owner_team=True) | Q(permissions__slug=perm_slug). -/
def orgTeamQueryCount (s : RepoState) (o : Organization) (user : Nat) (perm_slug : String)
    (project : Option Nat) : Nat :=
  ((((s.orgTeams.filter (fun t => t.organization_id == o.id)).filter
      (fun t => t.users.contains user)).filter
      (fun t => t.is_all_projects || projectFilterMatch t project)).filter
      (fun t => t.is_owner_team || holdsPermSlug s t.permissions perm_slug)).length

/-- Organization.user_has_permission: True iff the filter-chain count is
nonzero. -/
def Organization.user_has_permission (s : RepoState) (o : Organization) (user : Nat)
    (perm_slug : String) (project : Option Nat) : Bool :=
  if orgTeamQueryCount s o user perm_slug project != 0 then true else false

/-- The count of the first-tier filter chain of Project.user_has_permission:
self.teams (ProjectTeams of this project), filtered by users=user, then by
Q(is_owner_team=True) | Q(permissions__slug=perm_slug). -/
def projectTeamQueryCount (s : RepoState) (p : Project) (user : Nat) (perm_slug : String) : Nat :=
  (((s.projectTeams.filter (fun t => t.project_id == p.id)).filter
      (fun t => t.users.contains user)).filter
      (fun t => t.is_owner_team || holdsPermSlug s t.permissions perm_slug)).length

/-- Project.user_has_permission: return True when a ProjectTeam of this
project grants; otherwise resolve the owning namespace to its concrete
variant and delegate to the rule of that variant with this project as context. -/
def Project.user_has_permission (s : RepoState) (p : Project) (user : Nat)
    (perm_slug : String) : Except RepoError Bool :=
  if projectTeamQueryCount s p user perm_slug != 0 then .ok true
  else
    match get_subclass s p.namespace_id with
    | .error e => .error e
    | .ok (.user u) => .ok (RepoUser.user_has_permission u user perm_slug (some p.id))
    | .ok (.org o) => .ok (Organization.user_has_permission s o user perm_slug (some p.id))

/-- Team.check_consistent (the abstract default): always True. -/
def Team.check_consistent (_t : Team) : Bool := true

/-- Team.make_consistent (the abstract default): a no-op. -/
def Team.make_consistent (t : Team) : Team := t

/-- The Project rows the projects many-to-many of an OrganizationTeam links to. -/
def teamProjects (s : RepoState) (t : OrganizationTeam) : List Project :=
  s.projects.filter (fun p => t.projects.contains p.id)

/-- OrganizationTeam.make_consistent: keep only the linked projects whose
owning namespace is the organization of the team, and persist. -/
def OrganizationTeam.make_consistent (s : RepoState) (t : OrganizationTeam) : OrganizationTeam :=
  { t with projects :=
      ((teamProjects s t).filter (fun p => p.namespace_id == t.organization_id)).map Project.id }

/-- OrganizationTeam.check_consistent: true iff no linked project is owned by
a namespace other than the organization of the team
(self.projects.exclude(namespace=self.organization).count() == 0). -/
def OrganizationTeam.check_consistent (s : RepoState) (t : OrganizationTeam) : Bool :=
  ((teamProjects s t).filter (fun p => !(p.namespace_id == t.organization_id))).length == 0

/-- ProjectTeam.check_consistent: inherited unchanged from Team, always True. -/
def ProjectTeam.check_consistent (_t : ProjectTeam) : Bool := true

/-- ProjectTeam.make_consistent: inherited unchanged from Team, a no-op that
touches neither the team nor the rest of the state. -/
def ProjectTeam.make_consistent (s : RepoState) (t : ProjectTeam) : RepoState × ProjectTeam :=
  (s, t)

/-- The post-save hook create_project_owner_team: on first creation, resolve
the namespace of the project; when it is a User, create one ProjectTeam named
Owners, owner-flagged, scoped to the project, whose members are exactly that
user; when it is an Organization, create nothing. -/
def create_project_owner_team (s : RepoState) (proj : Project) (created : Bool) :
    Except RepoError RepoState :=
  if created then
    match get_subclass s proj.namespace_id with
    | .error e => .error e
    | .ok (.user u) =>
        .ok { s with projectTeams := s.projectTeams ++
          [{ tname := "Owners", users := [u.id], permissions := [],
             is_owner_team := true, project_id := proj.id }] }
    | .ok (.org _) => .ok s
  else .ok s

/-- The post-save hook create_organization_owner_team: on first creation,
create one OrganizationTeam named Owners, owner-flagged, all-projects-flagged,
scoped to the organization, with no members. -/
def create_organization_owner_team (s : RepoState) (org : Organization) (created : Bool) :
    RepoState :=
  if created then
    { s with orgTeams := s.orgTeams ++
      [{ tname := "Owners", users := [], permissions := [], is_owner_team := true,
         organization_id := org.id, projects := [], is_all_projects := true }] }
  else s

/-- Split a character list at its last at-sign; none when there is no
at-sign (the ValueError branch of rsplit with maxsplit 1). -/
def rsplitAtSign : List Char → Option (List Char × List Char)
  | [] => none
  | c :: rest =>
    match rsplitAtSign rest with
    | some (a, b) => some (c :: a, b)
    | none => if c = '@' then some ([], rest) else none

/-- BaseUserManager.normalize_email: strip, split on the last at-sign and
lowercase the domain part; on a string with no at-sign the original string is
returned unchanged. -/
def normalize_email (email : String) : String :=
  match rsplitAtSign email.trim.toList with
  | none => email
  | some (n, d) => String.mk n ++ "@" ++ (String.mk d).toLower

/-- The error raised by _create_user on an empty username. -/
inductive CreateUserError where
  | valueError
deriving DecidableEq

/-- RepoUserManager._create_user: reject an empty username, normalize the
email, and build the user record; is_active and is_superuser are hard-coded
to True while is_staff is taken from the argument.  Primary key assignment is
done by the persistence layer; password hashing is done by the authentication
collaborator. -/
def _create_user (now : Nat) (username email password : String)
    (is_staff is_superuser : Bool) : Except CreateUserError RepoUser :=
  if username = "" then .error .valueError
  else .ok { id := 0, uname := username, email := normalize_email email,
             password := password, is_staff := is_staff, is_active := true,
             is_superuser := true, date_joined := now }

/-- Spec-side predicate: the team holds a permission whose slug equals the
requested slug, going through the Permission catalog. -/
def HoldsSlug (s : RepoState) (permIds : List Nat) (slug : String) : Prop :=
  ∃ pid ∈ permIds, ∃ perm ∈ s.permissions, perm.id = pid ∧ perm.slug = slug

/-- Spec-side predicate, first tier of project resolution: some ProjectTeam
scoped to the project has the user as a member and is owner-flagged or holds
the requested slug. -/
def SpecProjectTeamGrant (s : RepoState) (p : Project) (user : Nat) (slug : String) : Prop :=
  ∃ t ∈ s.projectTeams, t.project_id = p.id ∧ user ∈ t.users ∧
    (t.is_owner_team = true ∨ HoldsSlug s t.permissions slug)

/-- Spec-side predicate, the organization rule exactly as the claim words it:
one team under the organization on which the user is a member, the team is
all-projects-flagged or its explicit project set contains the given project,
and the team is owner-flagged or holds the requested slug. -/
def SpecOrgGrant (s : RepoState) (o : Organization) (user : Nat) (slug : String)
    (project : Option Nat) : Prop :=
  ∃ t ∈ s.orgTeams, t.organization_id = o.id ∧ user ∈ t.users ∧
    (t.is_all_projects = true ∨ ∃ pid, project = some pid ∧ pid ∈ t.projects) ∧
    (t.is_owner_team = true ∨ HoldsSlug s t.permissions slug)

/-- Spec-side predicate, the organization rule amended for the absent-project
case: when no project is given the middle conjunct accepts a team whose
explicit project set is empty (the isnull match of the ORM), besides the
all-projects flag. -/
def SpecOrgGrantAmended (s : RepoState) (o : Organization) (user : Nat) (slug : String)
    (project : Option Nat) : Prop :=
  ∃ t ∈ s.orgTeams, t.organization_id = o.id ∧ user ∈ t.users ∧
    (t.is_all_projects = true ∨ (∃ pid, project = some pid ∧ pid ∈ t.projects) ∨
      (project = none ∧ t.projects = [])) ∧
    (t.is_owner_team = true ∨ HoldsSlug s t.permissions slug)

instance (s : RepoState) (permIds : List Nat) (slug : String) :
    Decidable (HoldsSlug s permIds slug) :=
  inferInstanceAs (Decidable (∃ pid ∈ permIds, ∃ perm ∈ s.permissions,
    perm.id = pid ∧ perm.slug = slug))

instance (s : RepoState) (p : Project) (user : Nat) (slug : String) :
    Decidable (SpecProjectTeamGrant s p user slug) :=
  inferInstanceAs (Decidable (∃ t ∈ s.projectTeams, t.project_id = p.id ∧ user ∈ t.users ∧
    (t.is_owner_team = true ∨ HoldsSlug s t.permissions slug)))

/-- Fixture: a user row used for concrete evaluations. -/
def uAlice : RepoUser := ⟨1, "alice", "", "", false, true, true, 0⟩

/-- Fixture: an organization row. -/
def orgAcme : Organization := ⟨2, "acme"⟩

/-- Fixture: a project owned by the user namespace 1. -/
def projWidgets : Project := ⟨100, "widgets", 1, ""⟩

/-- Fixture: a project owned by the organization namespace 2. -/
def projSite : Project := ⟨101, "site", 2, ""⟩

/-- Fixture: a catalog permission row. -/
def permDeploy : Permission := ⟨10, "deploy", "Deploy", "", true⟩

/-- Fixture: a non-owner ProjectTeam of projWidgets holding permDeploy. -/
def ptDevs : ProjectTeam := ⟨"Devs", [7], [10], false, 100⟩

/-- Fixture: an owner ProjectTeam of projWidgets with user 1 as member. -/
def ptOwnersW : ProjectTeam := ⟨"Owners", [1], [], true, 100⟩

/-- Fixture: an owner-flagged OrganizationTeam of orgAcme with user 7 as
member, no linked projects and no all-projects flag. -/
def otElite : OrganizationTeam := ⟨"Elite", [7], [], true, 2, [], false⟩

/-- Fixture: an OrganizationTeam of orgAcme linking one foreign project. -/
def otMess : OrganizationTeam := ⟨"Mess", [], [], false, 2, [100, 101], false⟩

/-- Fixture state: projWidgets with the slug-granting team ptDevs. -/
def stateW : RepoState := ⟨[uAlice], [], [projWidgets], [permDeploy], [], [ptDevs]⟩

/-- Fixture state: projWidgets with the owner team ptOwnersW and an empty
permission catalog. -/
def stateOwn : RepoState := ⟨[uAlice], [], [projWidgets], [], [], [ptOwnersW]⟩

/-- Fixture state: projWidgets owned by user 1 with no teams at all. -/
def stateUsr : RepoState := ⟨[uAlice], [], [projWidgets], [], [], []⟩

/-- Fixture state: orgAcme with the team otElite and no project context. -/
def stateC2 : RepoState := ⟨[], [orgAcme], [], [], [otElite], []⟩

/-- Fixture state: projSite owned by orgAcme, no teams. -/
def stateOrg : RepoState := ⟨[], [orgAcme], [projSite], [], [], []⟩

/-- Fixture state: both projects present, otMess linking one foreign one. -/
def stateMix : RepoState := ⟨[uAlice], [orgAcme], [projWidgets, projSite], [], [otMess], []⟩

/-- Fixture state: the empty database. -/
def stateEmpty : RepoState := ⟨[], [], [], [], [], []⟩

/-- A queryset-style count is nonzero exactly when some list element passes
the filter. -/
theorem filterLength_ne_zero_iff {α : Type} (l : List α) (p : α → Bool) :
    ((l.filter p).length != 0) = true ↔ ∃ x ∈ l, p x = true := by
  rw [bne_iff_ne, ne_eq, List.length_eq_zero, List.filter_eq_nil_iff]
  push_neg
  simp

/-- The Bool slug test agrees with the spec-side HoldsSlug predicate. -/
theorem holdsPermSlug_iff (s : RepoState) (permIds : List Nat) (slug : String) :
    holdsPermSlug s permIds slug = true ↔ HoldsSlug s permIds slug := by
  simp [holdsPermSlug, HoldsSlug, List.any_eq_true, Bool.and_eq_true, beq_iff_eq]

/-- The first-tier filter chain of project resolution counts a team exactly
when the spec-side first-tier grant predicate holds. -/
theorem projectTeamQueryCount_pos_iff (s : RepoState) (p : Project) (user : Nat) (slug : String) :
    (projectTeamQueryCount s p user slug != 0) = true ↔ SpecProjectTeamGrant s p user slug := by
  unfold projectTeamQueryCount SpecProjectTeamGrant
  rw [List.filter_filter, List.filter_filter, filterLength_ne_zero_iff]
  constructor
  · rintro ⟨t, htm, hc⟩
    rw [Bool.and_eq_true, Bool.and_eq_true] at hc
    obtain ⟨⟨h3, h2⟩, h1⟩ := hc
    rw [Bool.or_eq_true] at h3
    refine ⟨t, htm, beq_iff_eq.mp h1, List.elem_iff.mp h2, ?_⟩
    rcases h3 with h | h
    · exact Or.inl h
    · exact Or.inr ((holdsPermSlug_iff s t.permissions slug).mp h)
  · rintro ⟨t, htm, h1, h2, h3⟩
    refine ⟨t, htm, ?_⟩
    rw [Bool.and_eq_true, Bool.and_eq_true, Bool.or_eq_true]
    refine ⟨⟨?_, List.elem_iff.mpr h2⟩, beq_iff_eq.mpr h1⟩
    rcases h3 with h | h
    · exact Or.inl h
    · exact Or.inr ((holdsPermSlug_iff s t.permissions slug).mpr h)

/-- The organization filter chain counts a team exactly when one team carries
all three conjuncts, with the project condition in its ORM form. -/
theorem orgTeamQueryCount_pos_iff (s : RepoState) (o : Organization) (user : Nat) (slug : String)
    (project : Option Nat) :
    (orgTeamQueryCount s o user slug project != 0) = true ↔
      ∃ t ∈ s.orgTeams, t.organization_id = o.id ∧ user ∈ t.users ∧
        (t.is_all_projects = true ∨ projectFilterMatch t project = true) ∧
        (t.is_owner_team = true ∨ HoldsSlug s t.permissions slug) := by
  unfold orgTeamQueryCount
  rw [List.filter_filter, List.filter_filter, List.filter_filter, filterLength_ne_zero_iff]
  constructor
  · rintro ⟨t, htm, hc⟩
    rw [Bool.and_eq_true, Bool.and_eq_true, Bool.and_eq_true] at hc
    obtain ⟨⟨⟨h4, h3⟩, h2⟩, h1⟩ := hc
    rw [Bool.or_eq_true] at h3 h4
    refine ⟨t, htm, beq_iff_eq.mp h1, List.elem_iff.mp h2, h3, ?_⟩
    rcases h4 with h | h
    · exact Or.inl h
    · exact Or.inr ((holdsPermSlug_iff s t.permissions slug).mp h)
  · rintro ⟨t, htm, h1, h2, h3, h4⟩
    refine ⟨t, htm, ?_⟩
    rw [Bool.and_eq_true, Bool.and_eq_true, Bool.and_eq_true, Bool.or_eq_true, Bool.or_eq_true]
    refine ⟨⟨⟨?_, h3⟩, List.elem_iff.mpr h2⟩, beq_iff_eq.mpr h1⟩
    rcases h4 with h | h
    · exact Or.inl h
    · exact Or.inr ((holdsPermSlug_iff s t.permissions slug).mpr h)

/-- Organization.user_has_permission is the Bool of its filter-chain count
being nonzero. -/
theorem org_user_has_permission_eq (s : RepoState) (o : Organization) (user : Nat) (slug : String)
    (project : Option Nat) :
    Organization.user_has_permission s o user slug project =
      (orgTeamQueryCount s o user slug project != 0) := by
  unfold Organization.user_has_permission
  cases h : (orgTeamQueryCount s o user slug project != 0) <;> simp [h]

/-- When the spec-side first-tier grant holds, project resolution returns a
grant without consulting the namespace. -/
theorem project_perm_of_grant (s : RepoState) (p : Project) (user : Nat) (slug : String)
    (h : SpecProjectTeamGrant s p user slug) :
    Project.user_has_permission s p user slug = .ok true := by
  unfold Project.user_has_permission
  rw [if_pos ((projectTeamQueryCount_pos_iff s p user slug).mpr h)]

/-- When no ProjectTeam grants, project resolution is exactly the resolved
namespace rule applied with this project as context. -/
theorem project_perm_of_no_grant (s : RepoState) (p : Project) (user : Nat) (slug : String)
    (h : ¬ SpecProjectTeamGrant s p user slug) :
    Project.user_has_permission s p user slug =
      match get_subclass s p.namespace_id with
      | .error e => .error e
      | .ok (.user u) => .ok (RepoUser.user_has_permission u user slug (some p.id))
      | .ok (.org o) => .ok (Organization.user_has_permission s o user slug (some p.id)) := by
  unfold Project.user_has_permission
  rw [if_neg (fun hc => h ((projectTeamQueryCount_pos_iff s p user slug).mp hc))]

/-- Claim C1: project permission resolution is two-tier: it returns a grant
when some ProjectTeam scoped to the project has the user as a member and is
owner-flagged or holds the requested slug; otherwise it resolves the owning
namespace to its concrete variant and returns the result of that variant
rule invoked with this project as context. -/
theorem project_permission_two_tier (s : RepoState) (p : Project) (user : Nat) (slug : String) :
    (SpecProjectTeamGrant s p user slug → Project.user_has_permission s p user slug = .ok true) ∧
    (¬ SpecProjectTeamGrant s p user slug →
      Project.user_has_permission s p user slug =
        match get_subclass s p.namespace_id with
        | .error e => .error e
        | .ok (.user u) => .ok (RepoUser.user_has_permission u user slug (some p.id))
        | .ok (.org o) => .ok (Organization.user_has_permission s o user slug (some p.id))) :=
  ⟨project_perm_of_grant s p user slug, project_perm_of_no_grant s p user slug⟩

/-- Witness for C1: in stateW user 7 is granted through the slug-holding team
ptDevs, while user 9 falls through to the owning user namespace and is
denied. -/
theorem project_permission_two_tier_witness :
    (SpecProjectTeamGrant stateW projWidgets 7 "deploy" ∧
      Project.user_has_permission stateW projWidgets 7 "deploy" = .ok true) ∧
    (¬ SpecProjectTeamGrant stateW projWidgets 9 "deploy" ∧
      Project.user_has_permission stateW projWidgets 9 "deploy" = .ok false) := by
  have h1 : SpecProjectTeamGrant stateW projWidgets 7 "deploy" := by decide
  have h2 : ¬ SpecProjectTeamGrant stateW projWidgets 9 "deploy" := by decide
  exact ⟨⟨h1, (project_permission_two_tier stateW projWidgets 7 "deploy").1 h1⟩,
         ⟨h2, ((project_permission_two_tier stateW projWidgets 9 "deploy").2 h2).trans rfl⟩⟩

/-- Counterexample for C2: with no project given, a member of an owner team
whose explicit project set is empty is granted by the code (the ORM isnull
match), while the claim as stated demands the all-projects flag or a
containing project set and so denies. -/
theorem org_permission_claim_counterexample :
    Organization.user_has_permission stateC2 orgAcme 7 "push" none = true ∧
    ¬ SpecOrgGrant stateC2 orgAcme 7 "push" none := by
  refine ⟨rfl, ?_⟩
  rintro ⟨t, htm, -, -, hmid, -⟩
  have ht : t = otElite := by
    simpa [stateC2] using htm
  subst ht
  rcases hmid with h | ⟨pid, hp, -⟩
  · exact absurd h (by decide)
  · exact Option.noConfusion hp

/-- Claim C2 (amended): organization resolution returns true iff one single
team under the organization has the user as a member, is all-projects-flagged
or has the given project in its explicit project set or, when no project is
given, has an empty explicit project set, and is owner-flagged or holds the
requested slug; rights from two different teams are never combined. -/
theorem org_permission_single_team (s : RepoState) (o : Organization) (user : Nat) (slug : String)
    (project : Option Nat) :
    Organization.user_has_permission s o user slug project = true ↔
      SpecOrgGrantAmended s o user slug project := by
  rw [org_user_has_permission_eq, orgTeamQueryCount_pos_iff]
  unfold SpecOrgGrantAmended
  constructor
  · rintro ⟨t, htm, h1, h2, h3, h4⟩
    refine ⟨t, htm, h1, h2, ?_, h4⟩
    rcases h3 with h | h
    · exact Or.inl h
    · right
      cases project with
      | none => exact Or.inr ⟨rfl, List.isEmpty_iff.mp h⟩
      | some pid => exact Or.inl ⟨pid, rfl, List.elem_iff.mp h⟩
  · rintro ⟨t, htm, h1, h2, h3, h4⟩
    refine ⟨t, htm, h1, h2, ?_, h4⟩
    rcases h3 with h | ⟨pid, hp, hmem⟩ | ⟨hn, hnil⟩
    · exact Or.inl h
    · subst hp
      exact Or.inr (List.elem_iff.mpr hmem)
    · subst hn
      exact Or.inr (List.isEmpty_iff.mpr hnil)

/-- Claim C3: membership in an owner-flagged ProjectTeam of the project
grants every requested slug, also slugs with no catalog record; an unknown
slug never raises, it only fails the slug branch. -/
theorem owner_project_team_grants_any_slug (s : RepoState) (p : Project) (user : Nat)
    (slug : String)
    (h : ∃ t ∈ s.projectTeams, t.project_id = p.id ∧ t.is_owner_team = true ∧ user ∈ t.users) :
    Project.user_has_permission s p user slug = .ok true := by
  obtain ⟨t, htm, hp, ho, hu⟩ := h
  exact project_perm_of_grant s p user slug ⟨t, htm, hp, hu, Or.inl ho⟩

/-- Witness for C3: in stateOwn the owner-team member 1 is granted the slug
ghost although the permission catalog of stateOwn is empty. -/
theorem owner_project_team_grants_any_slug_witness :
    (∃ t ∈ stateOwn.projectTeams, t.project_id = projWidgets.id ∧ t.is_owner_team = true ∧
      1 ∈ t.users) ∧
    stateOwn.permissions = [] ∧
    Project.user_has_permission stateOwn projWidgets 1 "ghost" = .ok true :=
  ⟨by decide, rfl, owner_project_team_grants_any_slug stateOwn projWidgets 1 "ghost" (by decide)⟩

/-- Claim C4: the User-target rule grants iff the acting user is the checked
identity; hence on a project whose namespace resolves to that user, resolution
grants exactly when the acting user is the owner or some ProjectTeam grants
separately. -/
theorem user_namespace_permission_rule (s : RepoState) (p : Project) (self : RepoUser)
    (user : Nat) (slug : String) (project : Option Nat) :
    (RepoUser.user_has_permission self user slug project = true ↔ user = self.id) ∧
    (get_subclass s p.namespace_id = .ok (.user self) →
      (Project.user_has_permission s p user slug = .ok true ↔
        (user = self.id ∨ SpecProjectTeamGrant s p user slug))) := by
  constructor
  · simp [RepoUser.user_has_permission]
  · intro hsub
    by_cases hg : SpecProjectTeamGrant s p user slug
    · rw [project_perm_of_grant s p user slug hg]
      simp [hg]
    · rw [project_perm_of_no_grant s p user slug hg, hsub]
      simp [RepoUser.user_has_permission, hg]

/-- Witness for C4: in stateUsr (projWidgets owned by user 1, no teams) user 1
is granted an arbitrary slug and user 2 is denied it. -/
theorem user_namespace_permission_rule_witness :
    (RepoUser.user_has_permission uAlice 1 "any" (some 100) = true ↔ (1 : Nat) = uAlice.id) ∧
    Project.user_has_permission stateUsr projWidgets 1 "any" = .ok true ∧
    Project.user_has_permission stateUsr projWidgets 2 "any" ≠ .ok true := by
  have h1 := user_namespace_permission_rule stateUsr projWidgets uAlice 1 "any" (some 100)
  have h2 := user_namespace_permission_rule stateUsr projWidgets uAlice 2 "any" (some 100)
  refine ⟨h1.1, (h1.2 rfl).mpr (Or.inl rfl), fun hc => ?_⟩
  rcases (h2.2 rfl).mp hc with h | h
  · exact absurd h (by decide)
  · exact absurd h (by decide)

/-- Claim C5: on first creation of a project whose namespace resolves to a
User, the provisioner appends exactly one ProjectTeam named Owners, owner
flagged, scoped to the project, with exactly that user as member; when the
namespace resolves to an Organization it appends nothing; on first creation
of an organization it appends exactly one OrganizationTeam named Owners,
owner-flagged and all-projects-flagged, with no members. -/
theorem owner_team_provisioning (s : RepoState) (p : Project) (u : RepoUser)
    (o org : Organization) :
    (get_subclass s p.namespace_id = .ok (.user u) →
      create_project_owner_team s p true =
        .ok { s with projectTeams := s.projectTeams ++
          [{ tname := "Owners", users := [u.id], permissions := [],
             is_owner_team := true, project_id := p.id }] }) ∧
    (get_subclass s p.namespace_id = .ok (.org o) →
      create_project_owner_team s p true = .ok s) ∧
    create_organization_owner_team s org true =
      { s with orgTeams := s.orgTeams ++
        [{ tname := "Owners", users := [], permissions := [], is_owner_team := true,
           organization_id := org.id, projects := [], is_all_projects := true }] } := by
  refine ⟨fun h => ?_, fun h => ?_, ?_⟩
  · simp [create_project_owner_team, h]
  · simp [create_project_owner_team, h]
  · simp [create_organization_owner_team]

/-- Witness for C5: the user-owned project of stateUsr gets the Owners team
with member 1; the organization-owned project of stateOrg gets nothing; the
organization gets its Owners shell. -/
theorem owner_team_provisioning_witness :
    (get_subclass stateUsr projWidgets.namespace_id = .ok (.user uAlice) ∧
      create_project_owner_team stateUsr projWidgets true =
        .ok { stateUsr with projectTeams := stateUsr.projectTeams ++
          [{ tname := "Owners", users := [uAlice.id], permissions := [],
             is_owner_team := true, project_id := projWidgets.id }] }) ∧
    (get_subclass stateOrg projSite.namespace_id = .ok (.org orgAcme) ∧
      create_project_owner_team stateOrg projSite true = .ok stateOrg) ∧
    create_organization_owner_team stateUsr orgAcme true =
      { stateUsr with orgTeams := stateUsr.orgTeams ++
        [{ tname := "Owners", users := [], permissions := [], is_owner_team := true,
           organization_id := orgAcme.id, projects := [], is_all_projects := true }] } :=
  ⟨⟨rfl, (owner_team_provisioning stateUsr projWidgets uAlice orgAcme orgAcme).1 rfl⟩,
   ⟨rfl, (owner_team_provisioning stateOrg projSite uAlice orgAcme orgAcme).2.1 rfl⟩,
   (owner_team_provisioning stateUsr projWidgets uAlice orgAcme orgAcme).2.2⟩

/-- Claim C8: when the namespace of a project fails to resolve to exactly one
concrete variant, permission resolution (when no ProjectTeam grants first)
and provisioning both fail with the integrity error, never returning a grant
or a denial. -/
theorem integrity_failure_never_defaults (s : RepoState) (p : Project) (user : Nat)
    (slug : String)
    (h : get_subclass s p.namespace_id = .error RepoError.integrityError) :
    (¬ SpecProjectTeamGrant s p user slug →
      Project.user_has_permission s p user slug = .error RepoError.integrityError) ∧
    create_project_owner_team s p true = .error RepoError.integrityError := by
  constructor
  · intro hg
    rw [project_perm_of_no_grant s p user slug hg, h]
  · simp [create_project_owner_team, h]

/-- Witness for C8: in the empty database the namespace of projWidgets
resolves to no variant, and both operations fail with the integrity error. -/
theorem integrity_failure_never_defaults_witness :
    get_subclass stateEmpty projWidgets.namespace_id = .error RepoError.integrityError ∧
    Project.user_has_permission stateEmpty projWidgets 1 "any" = .error RepoError.integrityError ∧
    create_project_owner_team stateEmpty projWidgets true = .error RepoError.integrityError :=
  ⟨rfl,
   (integrity_failure_never_defaults stateEmpty projWidgets 1 "any" rfl).1 (by decide),
   (integrity_failure_never_defaults stateEmpty projWidgets 1 "any" rfl).2⟩

/-- Claim C9: the abstract Team default and ProjectTeam both have an
always-true consistency check and a make-consistent that is a no-op leaving
team and state unchanged. -/
theorem base_and_project_team_trivial_consistency (s : RepoState) (b : Team) (t : ProjectTeam) :
    Team.check_consistent b = true ∧ Team.make_consistent b = b ∧
    ProjectTeam.check_consistent t = true ∧ ProjectTeam.make_consistent s t = (s, t) :=
  ⟨rfl, rfl, rfl, rfl⟩

/-- Claim C10: every record produced by _create_user has is_superuser and
is_active hard-coded to true, whatever is_superuser argument was passed. -/
theorem create_user_forces_flags (now : Nat) (username email password : String)
    (st su : Bool) (h : username ≠ "") :
    ∃ u, _create_user now username email password st su = .ok u ∧
      u.is_superuser = true ∧ u.is_active = true := by
  simp only [_create_user, if_neg h]
  exact ⟨_, rfl, rfl, rfl⟩

/-- Witness for C10: creating bob with is_superuser passed as false still
yields a superuser, active record. -/
theorem create_user_forces_flags_witness :
    ("bob" : String) ≠ "" ∧
    ∃ u, _create_user 0 "bob" "B@EX.com" "pw" false false = .ok u ∧
      u.is_superuser = true ∧ u.is_active = true :=
  ⟨by decide, create_user_forces_flags 0 "bob" "B@EX.com" "pw" false false (by decide)⟩

/-- Two stacked filters agree when the inner predicates agree on every
element passing the outer one. -/
theorem filter_filter_congr {α : Type} (l : List α) (A A2 B : α → Bool)
    (h : ∀ x ∈ l, B x = true → A2 x = A x) :
    (l.filter A2).filter B = (l.filter A).filter B := by
  induction l with
  | nil => rfl
  | cons a as ih =>
    have ih2 := ih (fun x hx hBx => h x (List.mem_cons_of_mem a hx) hBx)
    by_cases hB : B a = true
    · have hAA : A2 a = A a := h a (List.mem_cons_self a as) hB
      by_cases hA : A a = true
      · have hA2 : A2 a = true := by rw [hAA]; exact hA
        simp [List.filter_cons, hA2, hA, hB, ih2]
      · have hA2 : ¬ A2 a = true := by rw [hAA]; exact hA
        simp [List.filter_cons, hA2, hA, ih2]
    · by_cases hA2 : A2 a = true <;> by_cases hA : A a = true <;>
        simp [List.filter_cons, hA2, hA, hB, ih2]

/-- Claim C6: after make_consistent runs on an OrganizationTeam (in a state
whose project primary keys are distinct, as the database guarantees),
check_consistent returns true: every remaining linked project is owned by
the organization of the team. -/
theorem make_consistent_restores_invariant (s : RepoState) (t : OrganizationTeam)
    (h : (s.projects.map Project.id).Nodup) :
    OrganizationTeam.check_consistent s (OrganizationTeam.make_consistent s t) = true := by
  unfold OrganizationTeam.check_consistent OrganizationTeam.make_consistent teamProjects
  dsimp only
  rw [beq_iff_eq, List.length_eq_zero, List.filter_eq_nil_iff]
  intro q hq
  rw [List.mem_filter] at hq
  obtain ⟨hqs, hqc⟩ := hq
  rw [List.elem_iff, List.mem_map] at hqc
  obtain ⟨r, hr, hrid⟩ := hqc
  obtain ⟨hr1, hrns⟩ := List.mem_filter.mp hr
  obtain ⟨hrs, -⟩ := List.mem_filter.mp hr1
  have hqr : q = r := List.inj_on_of_nodup_map h hqs hrs hrid.symm
  rw [hqr, hrns]
  decide

/-- Witness for C6: repairing otMess (which links the foreign project 100 and
the domestic project 101) in stateMix leaves a team passing the check. -/
theorem make_consistent_restores_invariant_witness :
    (stateMix.projects.map Project.id).Nodup ∧
    OrganizationTeam.check_consistent stateMix
      (OrganizationTeam.make_consistent stateMix otMess) = true :=
  ⟨by decide, make_consistent_restores_invariant stateMix otMess (by decide)⟩

/-- Claim C7: make_consistent on an OrganizationTeam is idempotent: a second
run returns exactly the team state the first run produced. -/
theorem make_consistent_idempotent (s : RepoState) (t : OrganizationTeam) :
    OrganizationTeam.make_consistent s (OrganizationTeam.make_consistent s t) =
      OrganizationTeam.make_consistent s t := by
  unfold OrganizationTeam.make_consistent teamProjects
  dsimp only
  congr 1
  refine congrArg (List.map Project.id) (filter_filter_congr s.projects
    (fun p => t.projects.contains p.id)
    (fun p => (((s.projects.filter (fun q => t.projects.contains q.id)).filter
      (fun q => q.namespace_id == t.organization_id)).map Project.id).contains p.id)
    (fun p => p.namespace_id == t.organization_id) ?_)
  intro p hp hB
  dsimp only
  dsimp only at hB
  cases hA : t.projects.contains p.id
  · rw [← Bool.not_eq_true]
    intro hc
    rw [List.elem_iff, List.mem_map] at hc
    obtain ⟨r, hr, hrid⟩ := hc
    obtain ⟨hr1, -⟩ := List.mem_filter.mp hr
    obtain ⟨-, hrc⟩ := List.mem_filter.mp hr1
    rw [hrid] at hrc
    rw [hA] at hrc
    exact Bool.false_ne_true hrc
  · rw [List.elem_iff, List.mem_map]
    exact ⟨p, List.mem_filter.mpr ⟨List.mem_filter.mpr ⟨hp, hA⟩, hB⟩, rfl⟩
